import Mathlib

/-!
# Verification of the autostep_ros command/tracking node

Shallow embedding of `src/nodes/autostep_node.py` (class `AutostepNode`).
Floating-point arithmetic in the source is modelled over `ℚ`; every
operation the claims touch is `+`, `-`, `*`, `/`, so the rational model is
exact.  Python dicts of JSON arguments are modelled as association lists;
a `try args_dict[key] ... except KeyError` becomes an `Option` match.
Side effects on the actuator are recorded as an explicit list of calls,
and thread spawns are recorded as values describing the target and the
argument list handed to `threading.Thread`.
-/

namespace AutostepRos

/-- The response dict built by every command handler: the `success` and
`message` entries (extra entries such as `position` or `params` are not
read by any claim here). -/
structure RespDict where
  success : Bool
  message : String
deriving DecidableEq, Repr

/-- Calls into the `Autostep` actuator driver, as invoked by the node
(`self.autostep.<method>`); constructor names follow the source. -/
inductive ActCall where
  | run (velocity : ℚ)
  | move_to (position : ℚ)
  | set_position (position : ℚ)
  | get_position
  | is_busy
  | soft_stop
  | set_move_mode_max
  | set_move_mode_jog
  | set_move_mode_to_max
  | set_move_mode_to_jog
  | run_with_feedback (velocity : ℚ)
  | enable
  | release
deriving DecidableEq, Repr

/-- Mutable node state the command handlers touch (`self.running_motion_cmd`). -/
structure NodeState where
  running_motion_cmd : Bool
deriving DecidableEq, Repr

/-- `on_run_command` (source lines 102-116): read `velocity` from the args
dict; on `KeyError` report failure and make no actuator call, otherwise
call `autostep.run(velocity)`. -/
def on_run_command (args_dict : List (String × ℚ)) : RespDict × List ActCall :=
  match args_dict.lookup "velocity" with
  | some velocity => ({ success := true, message := "" }, [ActCall.run velocity])
  | none => ({ success := false, message := "velocity argument missing" }, [])

/-- `on_move_to_command` (lines 126-140). -/
def on_move_to_command (args_dict : List (String × ℚ)) : RespDict × List ActCall :=
  match args_dict.lookup "position" with
  | some position => ({ success := true, message := "" }, [ActCall.move_to position])
  | none => ({ success := false, message := "position argument missing" }, [])

/-- `on_set_position_command` (lines 154-168). -/
def on_set_position_command (args_dict : List (String × ℚ)) : RespDict × List ActCall :=
  match args_dict.lookup "position" with
  | some position => ({ success := true, message := "" }, [ActCall.set_position position])
  | none => ({ success := false, message := "position argument missing" }, [])

/-- `on_set_move_mode_command` (lines 209-228), transcribed faithfully: the
local flag `ok` is initialized to `False` and — unlike every other handler —
never set to `True` on the success path, so the `if ok:` block holding both
the actuator calls and the invalid-mode check is dead code. -/
def on_set_move_mode_command (args_dict : List (String × String)) : RespDict × List ActCall :=
  let ok := false
  match args_dict.lookup "mode" with
  | some mode =>
    let resp_dict : RespDict := { success := true, message := "" }
    if ok then
      if mode = "max" then (resp_dict, [ActCall.set_move_mode_max])
      else if mode = "jog" then (resp_dict, [ActCall.set_move_mode_jog])
      else ({ success := false, message := "mode must be \x27max\x27 or \x27jog\x27" }, [])
    else (resp_dict, [])
  | none => ({ success := false, message := "mode argument missing" }, [])

/-- The positional arguments handed to `threading.Thread` for
`self.autostep.sinusoid` (line 197: `[param, motion_data_callback,
motion_done_callback]`). -/
inductive SinThreadArg where
  | param
  | motion_data_callback
  | motion_done_callback
deriving DecidableEq, Repr

/-- `thread_args` of the sinusoid thread (line 197). -/
def sinusoid_thread_args : List SinThreadArg :=
  [SinThreadArg.param, SinThreadArg.motion_data_callback, SinThreadArg.motion_done_callback]

/-- Record of the thread spawned by `on_sinusoid_command`: the `param` dict
passed to `Autostep.sinusoid` and the positional argument list. -/
structure SinSpawn where
  param : List (String × ℚ)
  thread_args : List SinThreadArg
deriving DecidableEq, Repr

/-- `param_keys` of `on_sinusoid_command` (line 174). -/
def sinusoid_param_keys : List String :=
  ["amplitude", "period", "phase", "offset", "num_cycle"]

/-- The validation loop of `on_sinusoid_command` (lines 174-182): fold over
`param_keys`, collecting present keys into `param` and appending
`"<key> argument missing"` (comma-separated once nonempty) for each absent
key; returns `(ok, param, message)`. -/
def sinusoid_validate (args_dict : List (String × ℚ)) :
    Bool × List (String × ℚ) × String :=
  sinusoid_param_keys.foldl
    (fun acc key =>
      match args_dict.lookup key with
      | some v => (acc.1, acc.2.1 ++ [(key, v)], acc.2.2)
      | none =>
        (false, acc.2.1,
          (if acc.2.2.length > 0 then acc.2.2 ++ ", " else acc.2.2)
            ++ key ++ " argument missing"))
    (true, [], "")

/-- `on_sinusoid_command` (lines 170-206): validate the five parameters; if
all present, set `running_motion_cmd := true` under the lock, start the
sinusoid thread and report success; otherwise report the accumulated
missing-key message and spawn nothing.  Note the source performs no check
of `running_motion_cmd` before starting the thread. -/
def on_sinusoid_command (s : NodeState) (args_dict : List (String × ℚ)) :
    RespDict × NodeState × Option SinSpawn :=
  let v := sinusoid_validate args_dict
  if v.1 then
    ({ success := true, message := v.2.2 },
      { s with running_motion_cmd := true },
      some { param := v.2.1, thread_args := sinusoid_thread_args })
  else
    ({ success := false, message := v.2.2 }, s, none)

/-- Python-level exceptions that `on_run_trajectory_command` can raise
(neither is caught anywhere in the node). -/
inductive PyError where
  | IndexError
  | ValueError
deriving DecidableEq, Repr

/-- Outcome of a handler that can raise: either a normal return value or an
uncaught exception escaping the handler. -/
inductive PyResult (α : Type) where
  | ok (val : α)
  | raised (e : PyError)
deriving DecidableEq, Repr

/-- The positional arguments handed to `threading.Thread` for
`self.autostep.run_trajectory` (line 273:
`[t_done, position_func, velocity_func, False, motion_data_callback]`).
The locally defined `motion_done_callback` (lines 268-270) is NOT in this
list. -/
inductive TrajThreadArg where
  | t_done
  | position_func
  | velocity_func
  | disp_flag
  | motion_data_callback
  | motion_done_callback
deriving DecidableEq, Repr

/-- `thread_args` of the trajectory thread (line 273). -/
def run_trajectory_thread_args : List TrajThreadArg :=
  [TrajThreadArg.t_done, TrajThreadArg.position_func, TrajThreadArg.velocity_func,
    TrajThreadArg.disp_flag, TrajThreadArg.motion_data_callback]

/-- `velocity` array of `on_run_trajectory_command` (lines 254-255):
`velocity = zeros(position.shape); velocity[1:] = (position[1:] - position[:-1])/dt`,
i.e. `0` followed by the first differences divided by `dt`. -/
def trajVelocity (dt : ℚ) (position : List ℚ) : List ℚ :=
  match position with
  | [] => []
  | _ :: rest => 0 :: List.zipWith (fun a b => (b - a) / dt) position rest

/-- `t = dt*scipy.arange(0, position.shape[0])` (line 257): the uniform
sample-time axis `t_i = i·dt`. -/
def trajTimes (dt : ℚ) (n : ℕ) : List ℚ :=
  (List.range n).map (fun i => dt * i)

/-- `scipy.interpolate.interp1d(ts, ys, kind='linear')` evaluated at `x`:
piecewise-linear interpolation through the sample points `(ts i, ys i)` for
a strictly increasing `ts`.  Returns `none` when scipy would raise: fewer
than two sample points (ValueError at construction) or `x` below the first
sample time (bounds error; playback never evaluates there, per the source
`t_done = t[-1]` stopping condition). -/
def interp1d : List ℚ → List ℚ → ℚ → Option ℚ
  | t0 :: t1 :: ts, y0 :: y1 :: ys, x =>
    if x < t0 then none
    else if x ≤ t1 then some (y0 + (y1 - y0) * (x - t0) / (t1 - t0))
    else interp1d (t1 :: ts) (y1 :: ys) x
  | _, _, _ => none

/-- `position_func` of `on_run_trajectory_command` (line 260), as a function
of the sample interval and the positions array. -/
def trajectory_position_func (dt : ℚ) (position : List ℚ) : ℚ → Option ℚ :=
  interp1d (trajTimes dt position.length) position

/-- `velocity_func` of `on_run_trajectory_command` (line 261). -/
def trajectory_velocity_func (dt : ℚ) (position : List ℚ) : ℚ → Option ℚ :=
  interp1d (trajTimes dt position.length) (trajVelocity dt position)

/-- Record of the thread spawned by `on_run_trajectory_command`: the data
defining the two interpolants, `t_done`, and the positional argument list
handed to `threading.Thread`. -/
structure TrajSpawn where
  t_done : ℚ
  ts : List ℚ
  positions : List ℚ
  velocities : List ℚ
  thread_args : List TrajThreadArg
deriving DecidableEq, Repr

/-- `on_run_trajectory_command` (lines 242-279).  `dt` stands for the
constant `Autostep.TrajectoryDt` of the external autostep driver library
(a positive float; its exact value is outside this repository), so the
handler is parametrized by it.  The required key is `"position"` (line 245)
and its missing-key message is `"position (array) argument missing"`
(line 248).  `t[-1]` raises `IndexError` on an empty positions array, and
`scipy.interpolate.interp1d` raises `ValueError` when given fewer than two
sample points; either exception escapes the handler uncaught
(`PyResult.raised`).  On the accepted path the handler sets
`running_motion_cmd := true` under the lock and starts the playback thread
with `run_trajectory_thread_args`. -/
def on_run_trajectory_command (s : NodeState) (args_dict : List (String × List ℚ))
    (dt : ℚ) : PyResult (RespDict × NodeState × Option TrajSpawn) :=
  match args_dict.lookup "position" with
  | none =>
    PyResult.ok ({ success := false, message := "position (array) argument missing" }, s, none)
  | some position =>
    let velocity := trajVelocity dt position
    let t := trajTimes dt position.length
    match t.getLast? with
    | none => PyResult.raised PyError.IndexError
    | some t_done =>
      if position.length < 2 then PyResult.raised PyError.ValueError
      else
        PyResult.ok ({ success := true, message := "" },
          { s with running_motion_cmd := true },
          some { t_done := t_done, ts := t, positions := position,
                 velocities := velocity, thread_args := run_trajectory_thread_args })

/-- Modelled from the spec: the profile playback of the external autostep
driver (`Autostep.sinusoid`, `Autostep.run_trajectory`, not part of this
repository) runs the profile to completion and then invokes the completion
callback it was handed; when no completion callback is among its arguments,
no completion signal is delivered.  The node clears `running_motion_cmd`
only inside `motion_done_callback`, so after the profile ends the flag is
`false` exactly when that callback was passed to the thread. -/
def running_motion_after_completion (runningAfterStart : Bool)
    (donePassed : Bool) : Bool :=
  if donePassed then false else runningAfterStart

/-- The tracking-mode fields of `AutostepNode` (set up in `__init__`,
lines 30-36, plus `tracking_mode_enabled`, line 66). -/
structure TrackState where
  tracking_mode_enabled : Bool
  tracking_mode_is_first : Bool
  tracking_mode_first_update_t : ℚ
  tracking_mode_last_update_t : ℚ
  tracking_mode_position : ℚ
  tracking_mode_velocity : ℚ
  tracking_mode_position_start : ℚ
  tracking_mode_gain : ℚ
deriving DecidableEq, Repr

/-- `self.tracking_mode_gain = 5.0` (line 30). -/
def tracking_mode_gain_init : ℚ := 5

/-- A `TrackingData` message: `{position, velocity}`. -/
structure TrackingMsg where
  position : ℚ
  velocity : ℚ
deriving DecidableEq, Repr

/-- One `MotionData` telemetry message as published on `motion_data`
(header timestamp omitted): `(elapsed_time, position, setpoint, sensor)`. -/
structure MotionTelemetry where
  elapsed_time : ℚ
  position : ℚ
  setpoint : ℚ
  sensor : ℚ
deriving DecidableEq, Repr

/-- `on_enable_tracking_mode_command` (lines 281-287): under the lock,
`run(0.0)`, `set_move_mode_to_max()`, then set `tracking_mode_enabled` and
`tracking_mode_is_first`; always returns success. -/
def on_enable_tracking_mode_command (s : TrackState) :
    RespDict × TrackState × List ActCall :=
  ({ success := true, message := "" },
    { s with tracking_mode_enabled := true, tracking_mode_is_first := true },
    [ActCall.run 0, ActCall.set_move_mode_to_max])

/-- `on_disable_tracking_mode_command` (lines 289-294): under the lock,
clear `tracking_mode_enabled`, `set_move_mode_to_jog()`, `run(0.0)`. -/
def on_disable_tracking_mode_command (s : TrackState) :
    RespDict × TrackState × List ActCall :=
  ({ success := true, message := "" },
    { s with tracking_mode_enabled := false },
    [ActCall.set_move_mode_to_jog, ActCall.run 0])

/-- `on_tracking_data_callback` (lines 296-330).  The environment inputs
read inside the callback are passed explicitly: `now` is `rospy.get_time()`,
`get_position_result` the value `self.autostep.get_position()` would
return, and `run_with_feedback_result v` the measured position
`self.autostep.run_with_feedback(v)` would return.  The result is the new
state, the actuator calls made, and the telemetry published.
Fidelity note: lines 298-299 copy `self.tracking_mode_enabled` into a local
under the lock, but line 301 branches on `self.tracking_mode_enabled`
directly, ignoring the snapshot; in this sequential model the two reads see
the same value, so the branch below stands for both.  The lock discipline
itself is modelled separately by `on_tracking_data_callback_trace`. -/
def on_tracking_data_callback (s : TrackState) (msg : TrackingMsg) (now : ℚ)
    (get_position_result : ℚ) (run_with_feedback_result : ℚ → ℚ) :
    TrackState × List ActCall × List MotionTelemetry :=
  if s.tracking_mode_enabled then
    if s.tracking_mode_is_first then
      let first_update_t := now
      let position_start := get_position_result
      let s' := { s with
        tracking_mode_is_first := false,
        tracking_mode_first_update_t := first_update_t,
        tracking_mode_last_update_t := first_update_t,
        tracking_mode_position_start := position_start,
        tracking_mode_position := position_start,
        tracking_mode_velocity := 0 }
      let predicted_position := s'.tracking_mode_position
      let elapsed_time := s'.tracking_mode_last_update_t - s'.tracking_mode_first_update_t
      (s', [ActCall.get_position],
        [{ elapsed_time := elapsed_time, position := s'.tracking_mode_position,
           setpoint := predicted_position, sensor := 0 }])
    else
      let current_time := now
      let update_dt := current_time - s.tracking_mode_last_update_t
      let predicted_position :=
        s.tracking_mode_position + update_dt * s.tracking_mode_velocity
      let position_error :=
        msg.position - (predicted_position - s.tracking_mode_position_start)
      let new_velocity := s.tracking_mode_gain * position_error + msg.velocity
      let true_position := run_with_feedback_result new_velocity
      let s' := { s with
        tracking_mode_position := true_position,
        tracking_mode_velocity := new_velocity,
        tracking_mode_last_update_t := current_time }
      let elapsed_time := s'.tracking_mode_last_update_t - s'.tracking_mode_first_update_t
      (s', [ActCall.run_with_feedback new_velocity],
        [{ elapsed_time := elapsed_time, position := s'.tracking_mode_position,
           setpoint := predicted_position, sensor := 0 }])
  else (s, [], [])

/-! ## Lock-discipline model

Each handler body is transcribed as a linear trace of events: acquisitions
and releases of `self.lock`, reads/writes of the shared fields named by the
spec, and actuator calls.  The traces are read off the source line by line;
branching handlers get one trace per branch. -/

/-- The shared fields the spec places under the state lock: `enabled`
(`self.enabled_flag`), `tracking_enabled`, `running_motion`, and the
tracking scratch fields. -/
inductive GuardedField where
  | enabled_flag
  | tracking_mode_enabled
  | running_motion_cmd
  | tracking_mode_is_first
  | tracking_mode_first_update_t
  | tracking_mode_last_update_t
  | tracking_mode_position
  | tracking_mode_velocity
  | tracking_mode_position_start
deriving DecidableEq, Repr

/-- One event of a handler's execution, as relevant to the lock discipline. -/
inductive LockEvent where
  | acquire
  | release
  | readF (f : GuardedField)
  | writeF (f : GuardedField)
  | actuator (c : String)
deriving DecidableEq, Repr

/-- `True` when every read/write of a guarded field in the trace happens
while the lock depth is positive; `d` is the current depth. -/
def fieldAccessesLocked : ℕ → List LockEvent → Bool
  | _, [] => true
  | d, LockEvent.acquire :: rest => fieldAccessesLocked (d + 1) rest
  | d, LockEvent.release :: rest => fieldAccessesLocked (d - 1) rest
  | d, LockEvent.readF _ :: rest => decide (0 < d) && fieldAccessesLocked d rest
  | d, LockEvent.writeF _ :: rest => decide (0 < d) && fieldAccessesLocked d rest
  | d, LockEvent.actuator _ :: rest => fieldAccessesLocked d rest

/-- `True` when some actuator call in the trace happens while the lock
depth is positive. -/
def actuatorCallWhileLocked : ℕ → List LockEvent → Bool
  | _, [] => false
  | d, LockEvent.acquire :: rest => actuatorCallWhileLocked (d + 1) rest
  | d, LockEvent.release :: rest => actuatorCallWhileLocked (d - 1) rest
  | d, LockEvent.readF _ :: rest => actuatorCallWhileLocked d rest
  | d, LockEvent.writeF _ :: rest => actuatorCallWhileLocked d rest
  | d, LockEvent.actuator _ :: rest => decide (0 < d) || actuatorCallWhileLocked d rest

/-- `enable` (lines 77-79): `autostep.enable()`, then write `enabled_flag`
— no lock anywhere. -/
def enable_trace : List LockEvent :=
  [LockEvent.actuator "enable", LockEvent.writeF GuardedField.enabled_flag]

/-- `release` (lines 81-83): `autostep.release()`, then write `enabled_flag`
— no lock anywhere. -/
def release_trace : List LockEvent :=
  [LockEvent.actuator "release", LockEvent.writeF GuardedField.enabled_flag]

/-- The locked section of `on_sinusoid_command`'s accepted path
(lines 199-201): `with self.lock: self.running_motion_cmd = True`, then
`motion_thread.start()` outside the lock. -/
def sinusoid_start_trace : List LockEvent :=
  [LockEvent.acquire, LockEvent.writeF GuardedField.running_motion_cmd, LockEvent.release]

/-- `motion_done_callback` (lines 192-194 and 268-270): `with self.lock:
self.running_motion_cmd = False`. -/
def motion_done_callback_trace : List LockEvent :=
  [LockEvent.acquire, LockEvent.writeF GuardedField.running_motion_cmd, LockEvent.release]

/-- The locked section of `on_run_trajectory_command`'s accepted path
(lines 275-277). -/
def run_trajectory_start_trace : List LockEvent :=
  [LockEvent.acquire, LockEvent.writeF GuardedField.running_motion_cmd, LockEvent.release]

/-- `on_enable_tracking_mode_command` (lines 281-287): everything, the two
actuator calls included, happens inside `with self.lock`. -/
def on_enable_tracking_mode_trace : List LockEvent :=
  [LockEvent.acquire,
    LockEvent.actuator "run",
    LockEvent.actuator "set_move_mode_to_max",
    LockEvent.writeF GuardedField.tracking_mode_enabled,
    LockEvent.writeF GuardedField.tracking_mode_is_first,
    LockEvent.release]

/-- `on_disable_tracking_mode_command` (lines 289-294): the flag write and
both actuator calls happen inside `with self.lock`. -/
def on_disable_tracking_mode_trace : List LockEvent :=
  [LockEvent.acquire,
    LockEvent.writeF GuardedField.tracking_mode_enabled,
    LockEvent.actuator "set_move_mode_to_jog",
    LockEvent.actuator "run",
    LockEvent.release]

/-- `on_tracking_data_callback` (lines 296-330) as a trace, one per branch:
lines 298-299 read `tracking_mode_enabled` under the lock into a local, the
lock is released, and every subsequent access — the re-read of
`tracking_mode_enabled` on line 301 included — happens with no lock held. -/
def on_tracking_data_callback_trace (enabled is_first : Bool) : List LockEvent :=
  [LockEvent.acquire, LockEvent.readF GuardedField.tracking_mode_enabled,
    LockEvent.release,
    LockEvent.readF GuardedField.tracking_mode_enabled] ++
  if enabled then
    [LockEvent.readF GuardedField.tracking_mode_is_first] ++
    (if is_first then
      [LockEvent.writeF GuardedField.tracking_mode_is_first,
        LockEvent.writeF GuardedField.tracking_mode_first_update_t,
        LockEvent.readF GuardedField.tracking_mode_first_update_t,
        LockEvent.writeF GuardedField.tracking_mode_last_update_t,
        LockEvent.actuator "get_position",
        LockEvent.writeF GuardedField.tracking_mode_position_start,
        LockEvent.readF GuardedField.tracking_mode_position_start,
        LockEvent.writeF GuardedField.tracking_mode_position,
        LockEvent.readF GuardedField.tracking_mode_position,
        LockEvent.writeF GuardedField.tracking_mode_velocity]
    else
      [LockEvent.readF GuardedField.tracking_mode_last_update_t,
        LockEvent.readF GuardedField.tracking_mode_position,
        LockEvent.readF GuardedField.tracking_mode_velocity,
        LockEvent.readF GuardedField.tracking_mode_position_start,
        LockEvent.actuator "run_with_feedback",
        LockEvent.writeF GuardedField.tracking_mode_position,
        LockEvent.writeF GuardedField.tracking_mode_velocity,
        LockEvent.writeF GuardedField.tracking_mode_last_update_t]) ++
    [LockEvent.readF GuardedField.tracking_mode_last_update_t,
      LockEvent.readF GuardedField.tracking_mode_first_update_t,
      LockEvent.readF GuardedField.tracking_mode_position]
  else []

/-- All handler traces that touch guarded fields, paired with a tag naming
the handler (the tag `"on_enable_tracking_mode"` is the one the spec
excepts from the no-actuator-I/O-under-lock rule). -/
def allGuardedTraces : List (String × List LockEvent) :=
  [("enable", enable_trace),
    ("release", release_trace),
    ("on_sinusoid_start", sinusoid_start_trace),
    ("on_run_trajectory_start", run_trajectory_start_trace),
    ("motion_done_callback", motion_done_callback_trace),
    ("on_enable_tracking_mode", on_enable_tracking_mode_trace),
    ("on_disable_tracking_mode", on_disable_tracking_mode_trace),
    ("on_tracking_data_first", on_tracking_data_callback_trace true true),
    ("on_tracking_data_subsequent", on_tracking_data_callback_trace true false),
    ("on_tracking_data_disabled", on_tracking_data_callback_trace false false)]

/-- The lock-discipline property claimed by the spec, as one Boolean over
the handler traces: every guarded-field access crosses the lock, and no
actuator I/O happens while the lock is held except inside
`on_enable_tracking_mode`. -/
def lockDisciplineClaim : Bool :=
  allGuardedTraces.all (fun p =>
    fieldAccessesLocked 0 p.2 &&
      (p.1 = "on_enable_tracking_mode" || !actuatorCallWhileLocked 0 p.2))

/-! ## Theorems -/

/-- Characterization of `sinusoid_validate`: the `ok` flag is true exactly
when all five parameter keys are present, and the message is the
comma-joined list of `"<key> argument missing"` strings for the missing
keys, in `param_keys` order. -/
theorem sinusoid_validate_spec (args : List (String × ℚ)) :
    (sinusoid_validate args).1
        = sinusoid_param_keys.all (fun k => (args.lookup k).isSome) ∧
      (sinusoid_validate args).2.2
        = String.intercalate ", "
            ((sinusoid_param_keys.filter (fun k => (args.lookup k).isNone)).map
              (fun k => k ++ " argument missing")) := by
  rcases h1 : args.lookup "amplitude" with _ | v1 <;>
    rcases h2 : args.lookup "period" with _ | v2 <;>
      rcases h3 : args.lookup "phase" with _ | v3 <;>
        rcases h4 : args.lookup "offset" with _ | v4 <;>
          rcases h5 : args.lookup "num_cycle" with _ | v5 <;>
  simp [sinusoid_validate, sinusoid_param_keys, h1, h2, h3, h4, h5,
    String.intercalate] <;> rfl

/-- C1: the source performs no `running_motion_cmd` check in either
motion-starting handler.  Dispatching `sinusoid` (with all five arguments)
or `run_trajectory` (with a `position` array) while `running_motion_cmd`
is already `true` returns success with an empty message — not
`"motion already running"` — and spawns a second motion thread. -/
theorem C1_motion_conflict_unchecked :
    (on_sinusoid_command { running_motion_cmd := true }
        [("amplitude", (90 : ℚ)), ("period", 1), ("phase", 0), ("offset", 0),
          ("num_cycle", 2)]
      = ({ success := true, message := "" }, { running_motion_cmd := true },
          some { param := [("amplitude", (90 : ℚ)), ("period", 1), ("phase", 0),
                   ("offset", 0), ("num_cycle", 2)],
                 thread_args := sinusoid_thread_args })) ∧
    (on_run_trajectory_command { running_motion_cmd := true }
        [("position", [0, 1, 2])] 1
      = PyResult.ok ({ success := true, message := "" },
          { running_motion_cmd := true },
          some { t_done := 2, ts := [0, 1, 2], positions := [0, 1, 2],
                 velocities := [0, 1, 1],
                 thread_args := run_trajectory_thread_args })) ∧
    "" ≠ "motion already running" := by
  refine ⟨by decide, ?_, by decide⟩
  norm_num [on_run_trajectory_command, trajTimes, trajVelocity, List.range_succ]

/-- C2: an accepted `run_trajectory` sets `running_motion_cmd` to `true`,
but the thread is started with
`[t_done, position_func, velocity_func, False, motion_data_callback]` —
`motion_done_callback` is defined and then left out of the argument list,
unlike the sinusoid path which does pass it; so under the spec's playback
model the completion callback never fires for a trajectory and
`running_motion_cmd` stays `true` after the profile ends, instead of
becoming `false` as on the sinusoid path. -/
theorem C2_trajectory_done_callback_not_passed :
    (on_run_trajectory_command { running_motion_cmd := false }
        [("position", [0, 1, 2])] 1
      = PyResult.ok ({ success := true, message := "" },
          { running_motion_cmd := true },
          some { t_done := 2, ts := [0, 1, 2], positions := [0, 1, 2],
                 velocities := [0, 1, 1],
                 thread_args := run_trajectory_thread_args })) ∧
    (TrajThreadArg.motion_done_callback ∉ run_trajectory_thread_args) ∧
    running_motion_after_completion true
      (decide (TrajThreadArg.motion_done_callback ∈ run_trajectory_thread_args)) = true ∧
    (SinThreadArg.motion_done_callback ∈ sinusoid_thread_args) ∧
    running_motion_after_completion true
      (decide (SinThreadArg.motion_done_callback ∈ sinusoid_thread_args)) = false := by
  refine ⟨?_, by decide, by decide, by decide, by decide⟩
  norm_num [on_run_trajectory_command, trajTimes, trajVelocity, List.range_succ]

/-- C3: in `on_set_move_mode_command` the local `ok` flag is never set, so
the handler returns success with an empty message for any present `mode`
value — valid or not — and never calls `set_move_mode_max`/`set_move_mode_jog`;
the invalid-mode failure branch is unreachable. -/
theorem C3_set_move_mode_dead_flag :
    on_set_move_mode_command [("mode", "max")]
        = ({ success := true, message := "" }, []) ∧
    on_set_move_mode_command [("mode", "jog")]
        = ({ success := true, message := "" }, []) ∧
    on_set_move_mode_command [("mode", "bogus")]
        = ({ success := true, message := "" }, []) := by
  refine ⟨rfl, rfl, rfl⟩

/-- C4 counterexample: `run_trajectory`'s required key is `"position"`, not
`"positions"` — an args dict carrying `"positions"` still fails — and the
missing-key message is `"position (array) argument missing"`, not the
`"<key> argument missing"` shape the claim states. -/
theorem C4_counterexample_trajectory_key :
    on_run_trajectory_command { running_motion_cmd := false }
        [("positions", [0, 1, 2])] 1
      = PyResult.ok
          ({ success := false, message := "position (array) argument missing" },
            { running_motion_cmd := false }, none) ∧
    "position (array) argument missing" ≠ "positions argument missing" := by
  exact ⟨by decide, by decide⟩

/-- C4 (amended): for `run`, `move_to`, `set_position`, `set_move_mode` and
`sinusoid`, each missing required key yields `success = false` with message
`"<key> argument missing"` (comma-joined over the missing keys for
`sinusoid`) and no actuator call and no spawned thread; for
`run_trajectory` the single required key is `"position"` and its
missing-key message is `"position (array) argument missing"`. -/
theorem C4_missing_arguments (argsQ : List (String × ℚ))
    (argsS : List (String × String)) (argsT : List (String × List ℚ))
    (s s' : NodeState) (dt : ℚ) :
    (argsQ.lookup "velocity" = none →
      on_run_command argsQ
        = ({ success := false, message := "velocity argument missing" }, [])) ∧
    (argsQ.lookup "position" = none →
      on_move_to_command argsQ
          = ({ success := false, message := "position argument missing" }, []) ∧
        on_set_position_command argsQ
          = ({ success := false, message := "position argument missing" }, [])) ∧
    (argsS.lookup "mode" = none →
      on_set_move_mode_command argsS
        = ({ success := false, message := "mode argument missing" }, [])) ∧
    (sinusoid_param_keys.any (fun k => (argsQ.lookup k).isNone) = true →
      on_sinusoid_command s argsQ
        = ({ success := false,
             message := String.intercalate ", "
               ((sinusoid_param_keys.filter (fun k => (argsQ.lookup k).isNone)).map
                 (fun k => k ++ " argument missing")) }, s, none)) ∧
    (argsT.lookup "position" = none →
      on_run_trajectory_command s' argsT dt
        = PyResult.ok
            ({ success := false, message := "position (array) argument missing" },
              s', none)) := by
  refine ⟨?_, ?_, ?_, ?_, ?_⟩
  · intro h; simp [on_run_command, h]
  · intro h
    exact ⟨by simp [on_move_to_command, h], by simp [on_set_position_command, h]⟩
  · intro h; simp [on_set_move_mode_command, h]
  · intro h
    obtain ⟨k, hk, hnone⟩ := List.any_eq_true.1 h
    have hall : sinusoid_param_keys.all (fun k => (argsQ.lookup k).isSome) = false := by
      rw [Bool.eq_false_iff]
      intro hc
      have hs := List.all_eq_true.1 hc k hk
      rcases hmem : argsQ.lookup k with _ | v
      · rw [hmem] at hs; simp at hs
      · rw [hmem] at hnone; simp at hnone
    have hv := sinusoid_validate_spec argsQ
    have h1 : (sinusoid_validate argsQ).1 = false := hv.1.trans hall
    simp only [on_sinusoid_command, h1, Bool.false_eq_true, if_false]
    rw [hv.2]
  · intro h; simp [on_run_trajectory_command, h]

/-- C4 witness: with an empty args dict every listed handler reports its
missing-key failure and performs no actuator call. -/
theorem C4_missing_arguments_witness :
    on_run_command []
        = ({ success := false, message := "velocity argument missing" }, []) ∧
    on_move_to_command []
        = ({ success := false, message := "position argument missing" }, []) ∧
    on_set_position_command []
        = ({ success := false, message := "position argument missing" }, []) ∧
    on_set_move_mode_command []
        = ({ success := false, message := "mode argument missing" }, []) ∧
    on_sinusoid_command { running_motion_cmd := false } []
        = ({ success := false,
             message := "amplitude argument missing, period argument missing, phase argument missing, offset argument missing, num_cycle argument missing" },
            { running_motion_cmd := false }, none) ∧
    on_run_trajectory_command { running_motion_cmd := false } [] 1
        = PyResult.ok
            ({ success := false, message := "position (array) argument missing" },
              { running_motion_cmd := false }, none) := by
  have h := C4_missing_arguments [] [] [] { running_motion_cmd := false }
    { running_motion_cmd := false } 1
  refine ⟨h.1 rfl, (h.2.1 rfl).1, (h.2.1 rfl).2, h.2.2.1 rfl, ?_, h.2.2.2.2 rfl⟩
  have h5 := h.2.2.2.1 (by decide)
  rw [h5]; rfl

/-- C5 counterexample: for the trajectory interpolants built from positions
`[0, 1, 2]` at `dt = 1`, the velocity interpolant at `t = 0.5` evaluates to
`0.5` — the linear interpolation between the velocity samples `0` at `t=0`
and `1` at `t=1` — not `1.0` as the claim states. -/
theorem C5_counterexample_velocity_at_half :
    trajectory_velocity_func 1 [0, 1, 2] (1 / 2) = some (1 / 2) ∧
    some ((1 : ℚ) / 2) ≠ some (1 : ℚ) := by
  constructor
  · norm_num [trajectory_velocity_func, trajTimes, trajVelocity, interp1d,
      List.range_succ]
  · norm_num

/-- C5 (amended): for positions `[0, 1, 2]` at `dt = 1`,
`position(0.5) = 0.5` and `velocity(0.5) = 0.5`, and both interpolants
reproduce their sample values exactly at the sample points:
`position` gives `0, 1, 2` and `velocity` gives `0, 1, 1` at
`t = 0, 1, 2`. -/
theorem C5_interpolation_roundtrip :
    trajectory_position_func 1 [0, 1, 2] (1 / 2) = some (1 / 2) ∧
    trajectory_velocity_func 1 [0, 1, 2] (1 / 2) = some (1 / 2) ∧
    trajectory_position_func 1 [0, 1, 2] 0 = some 0 ∧
    trajectory_position_func 1 [0, 1, 2] 1 = some 1 ∧
    trajectory_position_func 1 [0, 1, 2] 2 = some 2 ∧
    trajectory_velocity_func 1 [0, 1, 2] 0 = some 0 ∧
    trajectory_velocity_func 1 [0, 1, 2] 1 = some 1 ∧
    trajectory_velocity_func 1 [0, 1, 2] 2 = some 1 := by
  refine ⟨?_, ?_, ?_, ?_, ?_, ?_, ?_, ?_⟩ <;>
    norm_num [trajectory_position_func, trajectory_velocity_func, trajTimes,
      trajVelocity, interp1d, List.range_succ]

/-- C6: on a tracking sample with tracking enabled and not the first
sample, with `dt = now - last_update_t` the callback computes
`predicted = position + dt*velocity`,
`error = sample.position - (predicted - position_start)` and
`command_velocity = gain*error + sample.velocity`, calls
`run_with_feedback(command_velocity)` exactly once, sets `position` to the
measured value it returns, `velocity` to `command_velocity` and
`last_update_t` to `now`, and publishes one telemetry sample
`(last_update_t - first_update_t, position, predicted, 0.0)`; in
particular with `gain = 5` and a zero sample, `run_with_feedback` receives
exactly `5·error`. -/
theorem C6_tracking_subsequent_sample (s : TrackState) (msg : TrackingMsg)
    (now gp : ℚ) (rwf : ℚ → ℚ)
    (hen : s.tracking_mode_enabled = true)
    (hfirst : s.tracking_mode_is_first = false) :
    let update_dt := now - s.tracking_mode_last_update_t
    let predicted := s.tracking_mode_position + update_dt * s.tracking_mode_velocity
    let error := msg.position - (predicted - s.tracking_mode_position_start)
    let command_velocity := s.tracking_mode_gain * error + msg.velocity
    let measured := rwf command_velocity
    on_tracking_data_callback s msg now gp rwf
        = ({ s with
              tracking_mode_position := measured,
              tracking_mode_velocity := command_velocity,
              tracking_mode_last_update_t := now },
            [ActCall.run_with_feedback command_velocity],
            [{ elapsed_time := now - s.tracking_mode_first_update_t,
               position := measured, setpoint := predicted, sensor := 0 }]) ∧
      (s.tracking_mode_gain = 5 → msg.position = 0 → msg.velocity = 0 →
        command_velocity = 5 * error) := by
  intro update_dt predicted error command_velocity measured
  constructor
  · simp only [on_tracking_data_callback, hen, hfirst, Bool.false_eq_true,
      if_true, if_false, ite_true, ite_false]
  · intro hg hp hv
    simp only [command_velocity, hg, hv, add_zero]

/-- C6 witness: a concrete non-first sample with gain 5, a zero sample and
prior state `position = 2`, `velocity = 3`, `position_start = 4`,
`last_update_t = 1` at `now = 2`: `dt = 1`, `predicted = 5`, `error = -1`,
`run_with_feedback` receives `-5 = 5·error`, and the measured position
(here `measured = -5 + 1 = -4` for the environment `rwf v = v + 1`) is
stored. -/
theorem C6_tracking_subsequent_sample_witness :
    on_tracking_data_callback
        { tracking_mode_enabled := true, tracking_mode_is_first := false,
          tracking_mode_first_update_t := 0, tracking_mode_last_update_t := 1,
          tracking_mode_position := 2, tracking_mode_velocity := 3,
          tracking_mode_position_start := 4, tracking_mode_gain := 5 }
        { position := 0, velocity := 0 } 2 0 (fun v => v + 1)
      = ({ tracking_mode_enabled := true, tracking_mode_is_first := false,
           tracking_mode_first_update_t := 0, tracking_mode_last_update_t := 2,
           tracking_mode_position := -4, tracking_mode_velocity := -5,
           tracking_mode_position_start := 4, tracking_mode_gain := 5 },
          [ActCall.run_with_feedback (-5)],
          [{ elapsed_time := 2, position := -4, setpoint := 5, sensor := 0 }]) ∧
    (5 : ℚ) * (0 - ((2 + (2 - 1) * 3) - 4)) = -5 := by
  have h := C6_tracking_subsequent_sample
    { tracking_mode_enabled := true, tracking_mode_is_first := false,
      tracking_mode_first_update_t := 0, tracking_mode_last_update_t := 1,
      tracking_mode_position := 2, tracking_mode_velocity := 3,
      tracking_mode_position_start := 4, tracking_mode_gain := 5 }
    { position := 0, velocity := 0 } 2 0 (fun v => v + 1) rfl rfl
  constructor
  · have h1 := h.1
    norm_num at h1 ⊢
    exact h1
  · norm_num

/-- C7: on the first tracking sample after enabling, the callback issues no
`run_with_feedback` (its only actuator interaction is the `get_position`
read), stores the read position into `position_start`, sets
`position = position_start` and `velocity = 0`, records
`first_update_t = last_update_t = now`, and publishes one telemetry sample
whose setpoint (`predicted_position`) equals `position_start` and whose
elapsed time is `0`. -/
theorem C7_tracking_first_sample (s : TrackState) (msg : TrackingMsg)
    (now gp : ℚ) (rwf : ℚ → ℚ)
    (hen : s.tracking_mode_enabled = true)
    (hfirst : s.tracking_mode_is_first = true) :
    on_tracking_data_callback s msg now gp rwf
        = ({ s with
              tracking_mode_is_first := false,
              tracking_mode_first_update_t := now,
              tracking_mode_last_update_t := now,
              tracking_mode_position_start := gp,
              tracking_mode_position := gp,
              tracking_mode_velocity := 0 },
            [ActCall.get_position],
            [{ elapsed_time := 0, position := gp, setpoint := gp, sensor := 0 }]) ∧
      (∀ v, ActCall.run_with_feedback v ∉
        (on_tracking_data_callback s msg now gp rwf).2.1) := by
  have heq : on_tracking_data_callback s msg now gp rwf
      = ({ s with
            tracking_mode_is_first := false,
            tracking_mode_first_update_t := now,
            tracking_mode_last_update_t := now,
            tracking_mode_position_start := gp,
            tracking_mode_position := gp,
            tracking_mode_velocity := 0 },
          [ActCall.get_position],
          [{ elapsed_time := 0, position := gp, setpoint := gp, sensor := 0 }]) := by
    simp only [on_tracking_data_callback, hen, hfirst, if_true, ite_true, sub_self]
  refine ⟨heq, ?_⟩
  intro v
  rw [heq]
  simp

/-- C7 witness: a concrete first sample at `now = 3` with the actuator
reporting position `7`: no `run_with_feedback` call, `position_start`,
`position` and the telemetry setpoint are all `7`, velocity is `0`, both
update times are `3`. -/
theorem C7_tracking_first_sample_witness :
    on_tracking_data_callback
        { tracking_mode_enabled := true, tracking_mode_is_first := true,
          tracking_mode_first_update_t := 0, tracking_mode_last_update_t := 0,
          tracking_mode_position := 0, tracking_mode_velocity := 0,
          tracking_mode_position_start := 0, tracking_mode_gain := 5 }
        { position := 1, velocity := 2 } 3 7 (fun v => v)
      = ({ tracking_mode_enabled := true, tracking_mode_is_first := false,
           tracking_mode_first_update_t := 3, tracking_mode_last_update_t := 3,
           tracking_mode_position := 7, tracking_mode_velocity := 0,
           tracking_mode_position_start := 7, tracking_mode_gain := 5 },
          [ActCall.get_position],
          [{ elapsed_time := 0, position := 7, setpoint := 7, sensor := 0 }]) :=
  (C7_tracking_first_sample
    { tracking_mode_enabled := true, tracking_mode_is_first := true,
      tracking_mode_first_update_t := 0, tracking_mode_last_update_t := 0,
      tracking_mode_position := 0, tracking_mode_velocity := 0,
      tracking_mode_position_start := 0, tracking_mode_gain := 5 }
    { position := 1, velocity := 2 } 3 7 (fun v => v) rfl rfl).1

/-- C8 counterexample: a `run_trajectory` dispatch whose positions array
has fewer than 2 samples does not produce a CommandResult: a single-sample
array raises `ValueError` (from `scipy.interpolate.interp1d`) and an empty
array raises `IndexError` (from `t[-1]`), and the exception escapes the
handler uncaught. -/
theorem C8_counterexample_short_trajectory :
    on_run_trajectory_command { running_motion_cmd := false }
        [("position", [0])] 1 = PyResult.raised PyError.ValueError ∧
    on_run_trajectory_command { running_motion_cmd := false }
        [("position", ([] : List ℚ))] 1 = PyResult.raised PyError.IndexError := by
  exact ⟨by decide, by decide⟩

/-- C8 (amended): for every `run_trajectory` dispatch whose positions array
has fewer than 2 samples, no motion run is started — `running_motion_cmd`
is not set and no thread is spawned — but instead of returning a failure
CommandResult the handler raises an uncaught exception: `IndexError` for
an empty array (at `t[-1]`), `ValueError` otherwise (from
`scipy.interpolate.interp1d`). -/
theorem C8_short_trajectory_raises (s : NodeState)
    (args_dict : List (String × List ℚ)) (dt : ℚ) (pos : List ℚ)
    (hlook : args_dict.lookup "position" = some pos)
    (hshort : pos.length < 2) :
    on_run_trajectory_command s args_dict dt
      = PyResult.raised
          (if pos.length = 0 then PyError.IndexError else PyError.ValueError) := by
  rcases pos with _ | ⟨a, _ | ⟨b, rest⟩⟩
  · simp [on_run_trajectory_command, hlook, trajTimes]
  · simp [on_run_trajectory_command, hlook, trajTimes, List.range_succ]
  · exact absurd hshort (by simp)

/-- C8 witness: the single-sample trajectory `[0]` satisfies the length
bound and the handler raises `ValueError`. -/
theorem C8_short_trajectory_raises_witness :
    on_run_trajectory_command { running_motion_cmd := false }
        [("position", [(0 : ℚ)])] 1 = PyResult.raised PyError.ValueError := by
  have h := C8_short_trajectory_raises { running_motion_cmd := false }
    [("position", [(0 : ℚ)])] 1 [0] rfl (by decide)
  simpa using h

/-- C9 counterexample: the lock discipline claimed by the spec — every
read/write of the guarded fields crosses the state lock, and no actuator
I/O happens under the lock except in `on_enable_tracking_mode` — is false
of the handler traces transcribed from the source. -/
theorem C9_counterexample_lock_discipline : lockDisciplineClaim = false := by
  decide

/-- C9 (amended): the `running_motion_cmd` writes (motion-start sections and
the done callback) and the tracking-flag writes of the two tracking-mode
toggles all cross the lock, but `enable`/`release` write `enabled_flag`
with no lock, and `on_tracking_data_callback` — after taking a lock-guarded
snapshot of `tracking_mode_enabled` that it then ignores — re-reads
`tracking_mode_enabled` and reads/writes every scratch field with no lock
held, on all of its branches; and actuator I/O under the lock happens not
only in `on_enable_tracking_mode` but also in `on_disable_tracking_mode`,
while no other handler performs actuator I/O under the lock (there is no
separate actuator serialization lock in the source at all, so no reverse
nesting of the two locks can occur). -/
theorem C9_actual_lock_discipline :
    fieldAccessesLocked 0 sinusoid_start_trace = true ∧
    fieldAccessesLocked 0 run_trajectory_start_trace = true ∧
    fieldAccessesLocked 0 motion_done_callback_trace = true ∧
    fieldAccessesLocked 0 on_enable_tracking_mode_trace = true ∧
    fieldAccessesLocked 0 on_disable_tracking_mode_trace = true ∧
    fieldAccessesLocked 0 enable_trace = false ∧
    fieldAccessesLocked 0 release_trace = false ∧
    fieldAccessesLocked 0 (on_tracking_data_callback_trace true true) = false ∧
    fieldAccessesLocked 0 (on_tracking_data_callback_trace true false) = false ∧
    fieldAccessesLocked 0 (on_tracking_data_callback_trace false false) = false ∧
    actuatorCallWhileLocked 0 on_enable_tracking_mode_trace = true ∧
    actuatorCallWhileLocked 0 on_disable_tracking_mode_trace = true ∧
    actuatorCallWhileLocked 0 sinusoid_start_trace = false ∧
    actuatorCallWhileLocked 0 run_trajectory_start_trace = false ∧
    actuatorCallWhileLocked 0 motion_done_callback_trace = false ∧
    actuatorCallWhileLocked 0 (on_tracking_data_callback_trace true true) = false ∧
    actuatorCallWhileLocked 0 (on_tracking_data_callback_trace true false) = false ∧
    actuatorCallWhileLocked 0 enable_trace = false ∧
    actuatorCallWhileLocked 0 release_trace = false := by
  decide

/-- C10: `enable_tracking_mode` always returns success with an empty
message, always issues exactly `run(0.0)` followed by
`set_move_mode_to_max()`, and unconditionally sets both
`tracking_mode_enabled` and `tracking_mode_is_first` — also when tracking
was already enabled — so the next inbound sample takes the first-sample
branch: it re-reads `position_start` from the actuator, resets
`position` to it and `velocity` to `0`, and issues no
`run_with_feedback`. -/
theorem C10_enable_tracking_reinitializes (s : TrackState) (msg : TrackingMsg)
    (now gp : ℚ) (rwf : ℚ → ℚ) :
    (on_enable_tracking_mode_command s).1 = { success := true, message := "" } ∧
    (on_enable_tracking_mode_command s).2.2
        = [ActCall.run 0, ActCall.set_move_mode_to_max] ∧
    (on_enable_tracking_mode_command s).2.1.tracking_mode_enabled = true ∧
    (on_enable_tracking_mode_command s).2.1.tracking_mode_is_first = true ∧
    (on_tracking_data_callback (on_enable_tracking_mode_command s).2.1
          msg now gp rwf).1.tracking_mode_position_start = gp ∧
    (on_tracking_data_callback (on_enable_tracking_mode_command s).2.1
          msg now gp rwf).1.tracking_mode_position = gp ∧
    (on_tracking_data_callback (on_enable_tracking_mode_command s).2.1
          msg now gp rwf).1.tracking_mode_velocity = 0 ∧
    (on_tracking_data_callback (on_enable_tracking_mode_command s).2.1
          msg now gp rwf).2.1 = [ActCall.get_position] := by
  refine ⟨rfl, rfl, rfl, rfl, ?_, ?_, ?_, ?_⟩ <;>
    simp [on_enable_tracking_mode_command, on_tracking_data_callback]

end AutostepRos
